import Mathlib

/-!
Shallow embedding of `src/main.py` ("Бухгалтерия v4.0"), a menu/CLI driven
personnel workflow over two boolean session flags and an append-only
operations history.  Pure Python functions become Lean functions; the global
mutable state (`employees_loaded`, `salary_calculated`, `operations_history`,
`CURRENT_THEME`) becomes an explicit `Session` value threaded through each
operation.  Console prints, log calls, created report files and the
browser-open side effect are collected in an `Effects` value.  The fallible
`open(...)/write` call inside each export's `try` block is modelled by a
`WriteOutcome` parameter fed through `write_report : ... → Except String _`;
the source's `except Exception` clause is the `Except.error` branch of the
`match`, which returns normally (totality of the Lean function is the
"exception never escapes the function" guarantee).  Wall-clock timestamps and
measured durations are opaque inputs carried in `Env`.
-/

namespace Accounting

/-- One entry of `operations_history` (src/main.py lines 214-221, 264-271):
operation name, timestamp, rounded duration and status. -/
structure OperationRecord where
  operation : String
  timestamp : String
  duration_sec : Nat
  status : String
  deriving DecidableEq, Repr

/-- The mutable module-level state of src/main.py lines 74, 91-93:
the two workflow flags, the operations history and the UI theme. -/
structure Session where
  employees_loaded : Bool
  salary_calculated : Bool
  operations_history : List OperationRecord
  current_theme : String
  deriving DecidableEq, Repr

/-- Process-start state: both flags `False`, empty history, light theme. -/
def initSession : Session :=
  { employees_loaded := false
    salary_calculated := false
    operations_history := []
    current_theme := "light" }

/-- Opaque environment inputs of one operation: the formatted
`datetime.now()` timestamp, the measured duration, and whether the `CI`
environment variable is set (src/main.py line 693). -/
structure Env where
  timestamp : String
  duration : Nat
  ci : Bool
  deriving DecidableEq, Repr

/-- Content of the JSON report written by `save_report_json`
(src/main.py lines 354-368); the fixed sample summary is kept as constants. -/
structure JsonReport where
  report_type : String
  generated_at : String
  theme : String
  employees_loaded : Bool
  salary_calculated : Bool
  total_employees : Nat
  salaries_calculated : Nat
  total_amount : String
  average_salary : String
  operations_history : List OperationRecord
  deriving DecidableEq, Repr

/-- A file written into the `reports` directory.  Only the JSON report's
content matters to the spec, so only it is carried structurally. -/
inductive ReportFile where
  | json (name : String) (content : JsonReport)
  | txt (name : String)
  | csv (name : String)
  | html (name : String)
  deriving DecidableEq, Repr

/-- Observable side effects of one operation: console prints, logger calls,
files created under `reports/`, and whether a browser was opened. -/
structure Effects where
  messages : List String
  logs : List String
  files : List ReportFile
  browserOpened : Bool
  deriving DecidableEq, Repr

/-- No side effects. -/
def Effects.empty : Effects :=
  { messages := [], logs := [], files := [], browserOpened := false }

/-- Console prints only. -/
def printed (l : List String) : Effects :=
  { messages := l, logs := [], files := [], browserOpened := false }

/-- Sequencing of side effects of two consecutive program fragments. -/
def Effects.seq (a b : Effects) : Effects :=
  { messages := a.messages ++ b.messages
    logs := a.logs ++ b.logs
    files := a.files ++ b.files
    browserOpened := a.browserOpened || b.browserOpened }

/-- Outcome of the OS-level file write attempted inside an export's `try`
block: success, or an `Exception` carrying message `e`. -/
inductive WriteOutcome where
  | ok
  | err (e : String)
  deriving DecidableEq, Repr

/-- The raw `open(filename, "w") ... write` call: it either produces the file
or raises.  Each export wraps this in `try/except` (the `match` in its own
definition). -/
def write_report (w : WriteOutcome) (f : ReportFile) : Except String ReportFile :=
  match w with
  | .ok => .ok f
  | .err e => .error e

/-- `load_employees` (src/main.py lines 177-226): warn and return if already
loaded, otherwise set the flag and append one "success" record. -/
def load_employees (s : Session) (env : Env) : Session × Effects :=
  if s.employees_loaded then
    (s, printed ["⚠️  Сотрудники уже загружены!"])
  else
    ({ s with
        employees_loaded := true
        operations_history := s.operations_history ++
          [{ operation := "Загрузка сотрудников"
             timestamp := env.timestamp
             duration_sec := env.duration
             status := "success" }] },
     { messages := ["Загрузка списка сотрудников из базы данных..."
                    , "✅ Сотрудники загружены успешно за " ++ toString env.duration ++ " сек!"]
       logs := ["Начало загрузки сотрудников"
                , "Сотрудники успешно загружены за " ++ toString env.duration ++ " сек"]
       files := []
       browserOpened := false })

/-- `calculate_salary_wrapper` (src/main.py lines 229-276): precondition
error if employees are not loaded, warn if already calculated, otherwise set
the flag and append one "success" record. -/
def calculate_salary_wrapper (s : Session) (env : Env) : Session × Effects :=
  if !s.employees_loaded then
    (s, printed ["❌ Ошибка: Сначала загрузите список сотрудников (пункт 1)!"])
  else if s.salary_calculated then
    (s, printed ["⚠️  Зарплата уже рассчитана!"])
  else
    ({ s with
        salary_calculated := true
        operations_history := s.operations_history ++
          [{ operation := "Расчёт зарплаты"
             timestamp := env.timestamp
             duration_sec := env.duration
             status := "success" }] },
     { messages := ["Расчёт зарплаты сотрудников..."
                    , "✅ Зарплата рассчитана успешно за " ++ toString env.duration ++ " сек!"]
       logs := ["Начало расчёта зарплаты"
                , "Зарплата успешно рассчитана за " ++ toString env.duration ++ " сек"]
       files := []
       browserOpened := false })

/-- `show_statistics` (src/main.py lines 279-339): gate on both flags, then
print the fixed summary tables (display only, no state change, no file). -/
def show_statistics (s : Session) : Session × Effects :=
  if !s.employees_loaded || !s.salary_calculated then
    (s, printed ["❌ Ошибка: Для просмотра статистики необходимо: 1. Загрузить сотрудников (п.1) 2. Рассчитать зарплату (п.2)"])
  else
    (s, printed ["📊 Формирование статистики и графиков..."
                 , "💼 Итоговый отчёт"
                 , "Структура по департаментам (средняя зарплата):"])

/-- The four export targets of the Reporter. -/
inductive ExportOp where
  | json
  | txt
  | csv
  | html
  deriving DecidableEq, Repr

/-- The gate-rejection message each export prints when the two prior steps
have not both completed (src/main.py lines 345-348, 387-390, 437-440, 574-577). -/
def exportGateMessage : ExportOp → String
  | .json => "❌ Невозможно сохранить отчёт: сначала выполните пункты 1 и 2!"
  | .txt => "❌ Невозможно сохранить отчёт: сначала выполните пункты 1 и 2!"
  | .csv => "❌ Невозможно экспортировать: сначала выполните пункты 1 и 2!"
  | .html => "❌ Невозможно экспортировать: сначала выполните пункты 1 и 2!"

/-- The user-visible message printed by each export's `except` branch. -/
def exportErrorMessage : ExportOp → String → String
  | .json, e => "❌ Ошибка сохранения JSON: " ++ e
  | .txt, e => "❌ Ошибка сохранения TXT: " ++ e
  | .csv, e => "❌ Ошибка экспорта CSV: " ++ e
  | .html, e => "❌ Ошибка экспорта HTML: " ++ e

/-- The logger line emitted by each export's `except` branch. -/
def exportErrorLog : ExportOp → String → String
  | .json, e => "Ошибка сохранения JSON: " ++ e
  | .txt, e => "Ошибка сохранения TXT: " ++ e
  | .csv, e => "Ошибка экспорта CSV: " ++ e
  | .html, e => "Ошибка экспорта HTML: " ++ e

/-- `save_report_json` (src/main.py lines 342-381): gate check, build
`report_data` from the current session, then try to write
`reports/report_<timestamp>.json`; an I/O exception is caught, printed and
logged.  The history is not touched. -/
def save_report_json (s : Session) (env : Env) (w : WriteOutcome) : Session × Effects :=
  if !s.employees_loaded || !s.salary_calculated then
    (s, printed [exportGateMessage .json])
  else
    let filename := "reports/report_" ++ env.timestamp ++ ".json"
    let report : JsonReport :=
      { report_type := "Бухгалтерия - Итоговый отчёт v4.0"
        generated_at := env.timestamp
        theme := s.current_theme
        employees_loaded := s.employees_loaded
        salary_calculated := s.salary_calculated
        total_employees := 15
        salaries_calculated := 15
        total_amount := "2 025 000 ₽"
        average_salary := "135 000 ₽"
        operations_history := s.operations_history }
    match write_report w (.json filename report) with
    | .ok f =>
        (s, { messages := ["✅ Отчёт сохранён: " ++ filename]
              logs := ["Отчёт сохранён в JSON: " ++ filename]
              files := [f]
              browserOpened := false })
    | .error e =>
        (s, { messages := [exportErrorMessage .json e]
              logs := [exportErrorLog .json e]
              files := []
              browserOpened := false })

/-- `save_report_txt` (src/main.py lines 384-431): same gate, writes the
fixed text report to `reports/report_<timestamp>.txt`. -/
def save_report_txt (s : Session) (env : Env) (w : WriteOutcome) : Session × Effects :=
  if !s.employees_loaded || !s.salary_calculated then
    (s, printed [exportGateMessage .txt])
  else
    let filename := "reports/report_" ++ env.timestamp ++ ".txt"
    match write_report w (.txt filename) with
    | .ok f =>
        (s, { messages := ["✅ Отчёт сохранён: " ++ filename]
              logs := ["Отчёт сохранён в TXT: " ++ filename]
              files := [f]
              browserOpened := false })
    | .error e =>
        (s, { messages := [exportErrorMessage .txt e]
              logs := [exportErrorLog .txt e]
              files := []
              browserOpened := false })

/-- `export_to_csv` (src/main.py lines 434-568): same gate, writes the fixed
employee table to `reports/employees_<timestamp>.csv`. -/
def export_to_csv (s : Session) (env : Env) (w : WriteOutcome) : Session × Effects :=
  if !s.employees_loaded || !s.salary_calculated then
    (s, printed [exportGateMessage .csv])
  else
    let filename := "reports/employees_" ++ env.timestamp ++ ".csv"
    match write_report w (.csv filename) with
    | .ok f =>
        (s, { messages := ["✅ Данные экспортированы в CSV: " ++ filename]
              logs := ["Данные экспортированы в CSV: " ++ filename]
              files := [f]
              browserOpened := false })
    | .error e =>
        (s, { messages := [exportErrorMessage .csv e]
              logs := [exportErrorLog .csv e]
              files := []
              browserOpened := false })

/-- `export_to_html` (src/main.py lines 571-702): same gate, writes the fixed
HTML report to `reports/report_<timestamp>.html`; on success it additionally
opens the browser unless the `CI` environment variable is set. -/
def export_to_html (s : Session) (env : Env) (w : WriteOutcome) : Session × Effects :=
  if !s.employees_loaded || !s.salary_calculated then
    (s, printed [exportGateMessage .html])
  else
    let filename := "reports/report_" ++ env.timestamp ++ ".html"
    match write_report w (.html filename) with
    | .ok f =>
        (s, { messages := ["✅ Отчёт экспортирован в HTML: " ++ filename] ++
                (if !env.ci then ["🌐 HTML-отчёт автоматически открыт в браузере"] else [])
              logs := ["Отчёт экспортирован в HTML: " ++ filename]
              files := [f]
              browserOpened := !env.ci })
    | .error e =>
        (s, { messages := [exportErrorMessage .html e]
              logs := [exportErrorLog .html e]
              files := []
              browserOpened := false })

/-- Dispatch to one of the four export operations (menu items 4-7). -/
def runExport : ExportOp → Session → Env → WriteOutcome → Session × Effects
  | .json, s, env, w => save_report_json s env w
  | .txt, s, env, w => save_report_txt s env w
  | .csv, s, env, w => export_to_csv s env w
  | .html, s, env, w => export_to_html s env w

/-- The status icon of one history row (src/main.py line 727). -/
def status_icon (r : OperationRecord) : String :=
  if r.status = "success" then "✓" else "✗"

/-- `show_history` (src/main.py lines 705-738): warn when empty, otherwise
render one row per record with its status icon (display only). -/
def show_history (s : Session) : Session × Effects :=
  if s.operations_history.isEmpty then
    (s, printed ["🕒 История операций пуста. Выполните какие-либо действия."])
  else
    (s, printed (s.operations_history.map (fun r =>
      r.operation ++ " | " ++ r.timestamp ++ " | " ++ toString r.duration_sec
        ++ " сек | " ++ status_icon r)))

/-- `switch_theme` (src/main.py lines 741-754): toggle light/dark. -/
def switch_theme (s : Session) : Session × Effects :=
  let newTheme := if s.current_theme = "light" then "dark" else "light"
  ({ s with current_theme := newTheme },
   printed ["🎨 Тема изменена на: " ++ newTheme])

/-- One interactive-menu action (main_loop's `actions` dict, src/main.py
lines 796-806). -/
inductive Action where
  | load
  | calculate
  | stats
  | save (op : ExportOp)
  | history
  | theme
  deriving DecidableEq, Repr

/-- Run one menu action. -/
def menuStep (a : Action) (env : Env) (w : WriteOutcome) (s : Session) : Session × Effects :=
  match a with
  | .load => load_employees s env
  | .calculate => calculate_salary_wrapper s env
  | .stats => show_statistics s
  | .save op => runExport op s env w
  | .history => show_history s
  | .theme => switch_theme s

/-- Parsed CLI arguments (src/main.py lines 916-934): three boolean flags, an
optional export format and the theme name (argparse default "light"). -/
structure Args where
  load : Bool
  calculate : Bool
  stats : Bool
  exportFmt : Option String
  theme : String
  deriving DecidableEq, Repr

/-- CLI load stage (src/main.py lines 872-874). -/
def cli_load_stage (doLoad : Bool) (s : Session) (env : Env) : Session × Effects :=
  if doLoad then
    let r := load_employees s env
    (r.1, Effects.seq (printed ["→ Загрузка сотрудников..."]) r.2)
  else (s, Effects.empty)

/-- CLI calculate stage (src/main.py lines 876-881): its own pre-check prints
a warning and skips the wrapper entirely when employees are not loaded. -/
def cli_calc_stage (doCalc : Bool) (s : Session) (env : Env) : Session × Effects :=
  if doCalc then
    if !s.employees_loaded then
      (s, printed ["⚠️  Сотрудники не загружены. Пропускаем расчёт."])
    else
      let r := calculate_salary_wrapper s env
      (r.1, Effects.seq (printed ["→ Расчёт зарплаты..."]) r.2)
  else (s, Effects.empty)

/-- CLI stats stage (src/main.py lines 883-885): silently skipped unless
salary has been calculated. -/
def cli_stats_stage (doStats : Bool) (s : Session) : Session × Effects :=
  if doStats && s.salary_calculated then
    let r := show_statistics s
    (r.1, Effects.seq (printed ["→ Генерация статистики..."]) r.2)
  else (s, Effects.empty)

/-- CLI export dispatch (src/main.py lines 887-897): an if/elif chain in
which every branch requires `salary_calculated`; when the flag is false no
branch fires, so nothing is printed and no export function is called. -/
def cli_export_stage (fmt : Option String) (s : Session) (env : Env) (w : WriteOutcome) : Session × Effects :=
  if fmt == some "json" && s.salary_calculated then
    let r := save_report_json s env w
    (r.1, Effects.seq (printed ["→ Экспорт в JSON..."]) r.2)
  else if fmt == some "csv" && s.salary_calculated then
    let r := export_to_csv s env w
    (r.1, Effects.seq (printed ["→ Экспорт в CSV..."]) r.2)
  else if fmt == some "html" && s.salary_calculated then
    let r := export_to_html s env w
    (r.1, Effects.seq (printed ["→ Экспорт в HTML..."]) r.2)
  else if fmt.isSome && s.salary_calculated then
    (s, printed ["⚠️  Неизвестный формат экспорта"])
  else (s, Effects.empty)

/-- `cli_mode` (src/main.py lines 862-904): set the theme, announce the run,
then execute the load, calculate, stats and export stages in order; print the
usage hint when no action flag was given.  `envL`/`envC`/`envE` are the
timestamps and durations observed by the successive stages. -/
def cli_mode (args : Args) (envL envC envE : Env) (w : WriteOutcome) (s : Session) : Session × Effects :=
  let s0 := if args.theme == "" then s else { s with current_theme := args.theme }
  let eff0 := printed ["Запуск в CLI-режиме (тема: " ++ s0.current_theme ++ ")"]
  let r1 := cli_load_stage args.load s0 envL
  let r2 := cli_calc_stage args.calculate r1.1 envC
  let r3 := cli_stats_stage args.stats r2.1
  let r4 := cli_export_stage args.exportFmt r3.1 envE w
  let hint :=
    if !(args.load || args.calculate || args.exportFmt.isSome || args.stats) then
      printed ["ℹ️  Укажите действия: --load, --calculate, --export, --stats"]
    else Effects.empty
  (r4.1,
   Effects.seq eff0 (Effects.seq r1.2 (Effects.seq r2.2 (Effects.seq r3.2
     (Effects.seq r4.2 (Effects.seq hint (printed ["✅ CLI-режим завершён"])))))))

/-- One observable interaction with the program: a single interactive-menu
action, or a whole CLI run. -/
inductive Event where
  | menu (a : Action) (env : Env) (w : WriteOutcome)
  | cli (args : Args) (envL envC envE : Env) (w : WriteOutcome)
  deriving DecidableEq, Repr

/-- The session state after one event. -/
def stepEvent (e : Event) (s : Session) : Session :=
  match e with
  | .menu a env w => (menuStep a env w s).1
  | .cli args envL envC envE w => (cli_mode args envL envC envE w s).1

/-- The session state after a sequence of events. -/
def runEvents (evs : List Event) (s : Session) : Session :=
  evs.foldl (fun t e => stepEvent e t) s

/-- Fixed opaque environment used for concrete test inputs. -/
def env0 : Env := { timestamp := "t0", duration := 1, ci := true }

/-- A session in which both workflow steps have completed. -/
def readySession : Session :=
  { employees_loaded := true
    salary_calculated := true
    operations_history := []
    current_theme := "light" }

/-- The state invariant of the Session Gate: salary can only have been
computed after the roster was loaded. -/
def Inv (s : Session) : Prop :=
  s.salary_calculated = true → s.employees_loaded = true

/- Section 1: state projections of the single operations. -/

theorem load_employees_fst_loaded (s : Session) (env : Env) :
    (load_employees s env).1.employees_loaded = true := by
  unfold load_employees; split <;> simp_all

theorem show_statistics_fst (s : Session) : (show_statistics s).1 = s := by
  unfold show_statistics; split <;> rfl

theorem save_report_json_fst (s : Session) (env : Env) (w : WriteOutcome) :
    (save_report_json s env w).1 = s := by
  unfold save_report_json; split
  · rfl
  · cases w <;> rfl

theorem save_report_txt_fst (s : Session) (env : Env) (w : WriteOutcome) :
    (save_report_txt s env w).1 = s := by
  unfold save_report_txt; split
  · rfl
  · cases w <;> rfl

theorem export_to_csv_fst (s : Session) (env : Env) (w : WriteOutcome) :
    (export_to_csv s env w).1 = s := by
  unfold export_to_csv; split
  · rfl
  · cases w <;> rfl

theorem export_to_html_fst (s : Session) (env : Env) (w : WriteOutcome) :
    (export_to_html s env w).1 = s := by
  unfold export_to_html; split
  · rfl
  · cases w <;> rfl

theorem runExport_fst (op : ExportOp) (s : Session) (env : Env) (w : WriteOutcome) :
    (runExport op s env w).1 = s := by
  cases op
  · exact save_report_json_fst s env w
  · exact save_report_txt_fst s env w
  · exact export_to_csv_fst s env w
  · exact export_to_html_fst s env w

theorem show_history_fst (s : Session) : (show_history s).1 = s := by
  unfold show_history; split <;> rfl

theorem cli_stats_stage_fst (doStats : Bool) (s : Session) :
    (cli_stats_stage doStats s).1 = s := by
  unfold cli_stats_stage; split
  · exact show_statistics_fst s
  · rfl

theorem cli_export_stage_fst (fmt : Option String) (s : Session) (env : Env) (w : WriteOutcome) :
    (cli_export_stage fmt s env w).1 = s := by
  unfold cli_export_stage
  split
  · exact save_report_json_fst s env w
  split
  · exact export_to_csv_fst s env w
  split
  · exact export_to_html_fst s env w
  split
  · rfl
  · rfl

theorem cli_mode_fst (args : Args) (envL envC envE : Env) (w : WriteOutcome) (s : Session) :
    (cli_mode args envL envC envE w s).1 =
      (cli_calc_stage args.calculate
        (cli_load_stage args.load
          (if args.theme == "" then s else { s with current_theme := args.theme }) envL).1
        envC).1 := by
  simp only [cli_mode, cli_stats_stage_fst, cli_export_stage_fst]

/- Section 2: preservation of the gate invariant by every operation. -/

theorem load_employees_inv (s : Session) (env : Env) :
    Inv (load_employees s env).1 := by
  intro _; exact load_employees_fst_loaded s env

theorem calculate_salary_wrapper_inv (s : Session) (env : Env) (h : Inv s) :
    Inv (calculate_salary_wrapper s env).1 := by
  unfold calculate_salary_wrapper
  split
  · exact h
  split
  · exact h
  · intro _; simp_all

theorem cli_load_stage_inv (b : Bool) (s : Session) (env : Env) (h : Inv s) :
    Inv (cli_load_stage b s env).1 := by
  unfold cli_load_stage
  split
  · exact load_employees_inv s env
  · exact h

theorem cli_calc_stage_inv (b : Bool) (s : Session) (env : Env) (h : Inv s) :
    Inv (cli_calc_stage b s env).1 := by
  unfold cli_calc_stage
  split
  · split
    · exact h
    · exact calculate_salary_wrapper_inv s env h
  · exact h

theorem cli_mode_inv (args : Args) (envL envC envE : Env) (w : WriteOutcome)
    (s : Session) (h : Inv s) : Inv (cli_mode args envL envC envE w s).1 := by
  rw [cli_mode_fst]
  apply cli_calc_stage_inv
  apply cli_load_stage_inv
  split
  · exact h
  · exact h

theorem stepEvent_inv (e : Event) (s : Session) (h : Inv s) : Inv (stepEvent e s) := by
  cases e with
  | menu a env w =>
    cases a with
    | load => exact load_employees_inv s env
    | calculate => exact calculate_salary_wrapper_inv s env h
    | stats => show Inv (show_statistics s).1; rw [show_statistics_fst]; exact h
    | save op => show Inv (runExport op s env w).1; rw [runExport_fst]; exact h
    | history => show Inv (show_history s).1; rw [show_history_fst]; exact h
    | theme => exact fun hs => h hs
  | cli args envL envC envE w => exact cli_mode_inv args envL envC envE w s h

theorem runEvents_inv (evs : List Event) : ∀ s : Session, Inv s → Inv (runEvents evs s) := by
  induction evs with
  | nil => exact fun s h => h
  | cons e t ih => exact fun s h => ih (stepEvent e s) (stepEvent_inv e s h)

/- Section 3: the history is append-only and appended records all carry
status "success". -/

/-- `t`'s history extends `s`'s history by a suffix of "success" records. -/
def logExtends (s t : Session) : Prop :=
  ∃ l, t.operations_history = s.operations_history ++ l ∧ ∀ r ∈ l, r.status = "success"

theorem logExtends_of_eq (s t : Session)
    (h : t.operations_history = s.operations_history) : logExtends s t :=
  ⟨[], by rw [h, List.append_nil], by simp⟩

theorem logExtends_trans (s t u : Session) (h1 : logExtends s t) (h2 : logExtends t u) :
    logExtends s u := by
  obtain ⟨l1, e1, p1⟩ := h1
  obtain ⟨l2, e2, p2⟩ := h2
  refine ⟨l1 ++ l2, by rw [e2, e1, List.append_assoc], ?_⟩
  intro r hr
  rcases List.mem_append.1 hr with hm | hm
  · exact p1 r hm
  · exact p2 r hm

theorem load_employees_log (s : Session) (env : Env) :
    logExtends s (load_employees s env).1 := by
  unfold load_employees
  split
  · exact logExtends_of_eq s s rfl
  · exact ⟨[{ operation := "Загрузка сотрудников", timestamp := env.timestamp
              , duration_sec := env.duration, status := "success" }], rfl, by simp⟩

theorem calculate_salary_wrapper_log (s : Session) (env : Env) :
    logExtends s (calculate_salary_wrapper s env).1 := by
  unfold calculate_salary_wrapper
  split
  · exact logExtends_of_eq s s rfl
  split
  · exact logExtends_of_eq s s rfl
  · exact ⟨[{ operation := "Расчёт зарплаты", timestamp := env.timestamp
              , duration_sec := env.duration, status := "success" }], rfl, by simp⟩

theorem cli_load_stage_log (b : Bool) (s : Session) (env : Env) :
    logExtends s (cli_load_stage b s env).1 := by
  unfold cli_load_stage
  split
  · exact load_employees_log s env
  · exact logExtends_of_eq s s rfl

theorem cli_calc_stage_log (b : Bool) (s : Session) (env : Env) :
    logExtends s (cli_calc_stage b s env).1 := by
  unfold cli_calc_stage
  split
  · split
    · exact logExtends_of_eq s s rfl
    · exact calculate_salary_wrapper_log s env
  · exact logExtends_of_eq s s rfl

theorem cli_mode_log (args : Args) (envL envC envE : Env) (w : WriteOutcome) (s : Session) :
    logExtends s (cli_mode args envL envC envE w s).1 := by
  rw [cli_mode_fst]
  set s0 := if args.theme == "" then s else { s with current_theme := args.theme } with hs0
  have h0 : logExtends s s0 := by
    rw [hs0]; split
    · exact logExtends_of_eq s s rfl
    · exact logExtends_of_eq s _ rfl
  have h1 := cli_load_stage_log args.load s0 envL
  have h2 := cli_calc_stage_log args.calculate (cli_load_stage args.load s0 envL).1 envC
  exact logExtends_trans _ _ _ (logExtends_trans _ _ _ h0 h1) h2

theorem stepEvent_log (e : Event) (s : Session) : logExtends s (stepEvent e s) := by
  cases e with
  | menu a env w =>
    cases a with
    | load => exact load_employees_log s env
    | calculate => exact calculate_salary_wrapper_log s env
    | stats =>
        exact logExtends_of_eq s _ (congrArg Session.operations_history (show_statistics_fst s))
    | save op =>
        exact logExtends_of_eq s _ (congrArg Session.operations_history (runExport_fst op s env w))
    | history =>
        exact logExtends_of_eq s _ (congrArg Session.operations_history (show_history_fst s))
    | theme => exact logExtends_of_eq s _ rfl
  | cli args envL envC envE w => exact cli_mode_log args envL envC envE w s

theorem runEvents_log_success (evs : List Event) :
    ∀ s : Session, (∀ r ∈ s.operations_history, r.status = "success") →
      ∀ r ∈ (runEvents evs s).operations_history, r.status = "success" := by
  induction evs with
  | nil => exact fun s h => h
  | cons e t ih =>
      intro s h
      apply ih (stepEvent e s)
      obtain ⟨l, he, hp⟩ := stepEvent_log e s
      intro r hr
      rw [he] at hr
      rcases List.mem_append.1 hr with hm | hm
      · exact h r hm
      · exact hp r hm

/- Section 4: the claims. -/

/-- The arguments of the CLI run `--load --calculate --export json`. -/
def argsLoadCalcJson : Args :=
  { load := true, calculate := true, stats := false
    exportFmt := some "json", theme := "light" }

/-- The arguments of the CLI run `--calculate` (no `--load`). -/
def argsCalcOnly : Args :=
  { load := false, calculate := true, stats := false
    exportFmt := none, theme := "light" }

/-- C1 counterexample: invoking the JSON export from a ready session with a
succeeding write completes successfully (it creates the report file and
prints the success message), yet the operation log does not grow by one
record — the export operations never append to `operations_history`. -/
theorem claim_C1_counterexample :
    (runExport ExportOp.json readySession env0 WriteOutcome.ok).2.files.length = 1 ∧
    (runExport ExportOp.json readySession env0 WriteOutcome.ok).2.messages
      = ["✅ Отчёт сохранён: reports/report_t0.json"] ∧
    ¬ ((runExport ExportOp.json readySession env0 WriteOutcome.ok).1.operations_history.length
        = readySession.operations_history.length + 1) := by
  refine ⟨rfl, rfl, ?_⟩
  intro h
  simp [runExport_fst, readySession] at h

/-- C1 (amended): a successful load-employees action and a successful
calculate-salary action each append exactly one OperationRecord with status
"success"; the four export operations leave the operation log unchanged. -/
theorem claim_C1_success_appends (s : Session) (env : Env) :
    (s.employees_loaded = false →
      (load_employees s env).1.operations_history
        = s.operations_history ++
          [{ operation := "Загрузка сотрудников", timestamp := env.timestamp
             , duration_sec := env.duration, status := "success" }]) ∧
    (s.employees_loaded = true → s.salary_calculated = false →
      (calculate_salary_wrapper s env).1.operations_history
        = s.operations_history ++
          [{ operation := "Расчёт зарплаты", timestamp := env.timestamp
             , duration_sec := env.duration, status := "success" }]) ∧
    (∀ op w, (runExport op s env w).1.operations_history = s.operations_history) := by
  refine ⟨?_, ?_, ?_⟩
  · intro h; simp [load_employees, h]
  · intro h1 h2; simp [calculate_salary_wrapper, h1, h2]
  · intro op w; rw [runExport_fst]

/-- C1 witness: concrete instances of the amended claim — loading from the
initial session appends the one success record, and a JSON export from a
ready session leaves the log untouched. -/
theorem claim_C1_witness :
    (load_employees initSession env0).1.operations_history
      = initSession.operations_history ++
        [{ operation := "Загрузка сотрудников", timestamp := env0.timestamp
           , duration_sec := env0.duration, status := "success" }] ∧
    (runExport ExportOp.json readySession env0 WriteOutcome.ok).1.operations_history
      = readySession.operations_history :=
  ⟨(claim_C1_success_appends initSession env0).1 rfl,
   (claim_C1_success_appends readySession env0).2.2 ExportOp.json WriteOutcome.ok⟩

/-- C2: in every session state reachable from the initial state by any
sequence of menu actions or CLI runs, `salary_calculated = true` implies
`employees_loaded = true`. -/
theorem claim_C2_salary_implies_loaded (evs : List Event) :
    (runEvents evs initSession).salary_calculated = true →
    (runEvents evs initSession).employees_loaded = true :=
  runEvents_inv evs initSession (fun h => h)

/-- C2 witness: after the trace load-then-calculate the salary flag is set,
and the theorem yields the loaded flag. -/
theorem claim_C2_witness :
    (runEvents [Event.menu Action.load env0 WriteOutcome.ok,
                Event.menu Action.calculate env0 WriteOutcome.ok]
        initSession).employees_loaded = true :=
  claim_C2_salary_implies_loaded
    [Event.menu Action.load env0 WriteOutcome.ok,
     Event.menu Action.calculate env0 WriteOutcome.ok] rfl

/-- C3: whenever the two workflow flags are not both true, each of the four
export operations only prints its gate-rejection message: the session is
returned unchanged and no report file is created. -/
theorem claim_C3_export_gate (op : ExportOp) (s : Session) (env : Env)
    (w : WriteOutcome)
    (h : s.employees_loaded = false ∨ s.salary_calculated = false) :
    runExport op s env w = (s, printed [exportGateMessage op]) := by
  have hc : (!s.employees_loaded || !s.salary_calculated) = true := by
    rcases h with h | h <;> simp [h]
  cases op <;>
    simp [runExport, save_report_json, save_report_txt, export_to_csv,
      export_to_html, exportGateMessage, hc]

/-- C3 witness: the JSON export from the initial session is rejected. -/
theorem claim_C3_witness :
    runExport ExportOp.json initSession env0 WriteOutcome.ok
      = (initSession, printed [exportGateMessage ExportOp.json]) :=
  claim_C3_export_gate ExportOp.json initSession env0 WriteOutcome.ok (Or.inl rfl)

/-- C4: in any session state with `employees_loaded = false`, the
calculate-salary operation only prints the precondition error pointing at
menu item 1; the session — flags and operation log — is returned unchanged. -/
theorem claim_C4_calculate_precondition (s : Session) (env : Env)
    (h : s.employees_loaded = false) :
    calculate_salary_wrapper s env
      = (s, printed ["❌ Ошибка: Сначала загрузите список сотрудников (пункт 1)!"]) := by
  simp [calculate_salary_wrapper, h]

/-- C4 witness: calculating from the initial session fails as stated. -/
theorem claim_C4_witness :
    calculate_salary_wrapper initSession env0
      = (initSession,
         printed ["❌ Ошибка: Сначала загрузите список сотрудников (пункт 1)!"]) :=
  claim_C4_calculate_precondition initSession env0 rfl

/-- C5: a CLI run with `--load --calculate --export json` from the initial
state creates exactly one report file; it is the JSON report and its content
records `employees_loaded = true` and `salary_calculated = true`. -/
theorem claim_C5_cli_json_scenario (envL envC envE : Env) :
    ∃ name content,
      (cli_mode argsLoadCalcJson envL envC envE WriteOutcome.ok initSession).2.files
        = [ReportFile.json name content] ∧
      content.employees_loaded = true ∧ content.salary_calculated = true :=
  ⟨_, _, rfl, rfl, rfl⟩

/-- C6: a CLI run with only `--calculate` from the initial state prints the
not-loaded warning between the banner messages, performs no calculation and
creates no file: the final session equals the initial one and the effects are
exactly the three console messages. -/
theorem claim_C6_cli_calculate_only (envL envC envE : Env) (w : WriteOutcome) :
    cli_mode argsCalcOnly envL envC envE w initSession
      = (initSession,
         printed ["Запуск в CLI-режиме (тема: light)"
                  , "⚠️  Сотрудники не загружены. Пропускаем расчёт."
                  , "✅ CLI-режим завершён"]) :=
  rfl

/-- C7: re-invoking load-employees in any session state that already has
`employees_loaded = true` is a no-op reported as a warning: it returns the
session unchanged (flags and operation log included) and prints only the
already-loaded warning. -/
theorem claim_C7_load_noop (s : Session) (env : Env)
    (h : s.employees_loaded = true) :
    load_employees s env = (s, printed ["⚠️  Сотрудники уже загружены!"]) := by
  simp [load_employees, h]

/-- C7 witness: repeating the load on a ready session is the stated no-op. -/
theorem claim_C7_witness :
    load_employees readySession env0
      = (readySession, printed ["⚠️  Сотрудники уже загружены!"]) :=
  claim_C7_load_noop readySession env0 rfl

/-- C8: when an export's precondition holds and the file write raises an
exception `e`, every one of the four export operations catches it: it returns
the session unchanged with exactly the user-visible error message and the
error log entry, no file and no browser launch (the function returns normally
rather than propagating the exception). -/
theorem claim_C8_export_error_handled (op : ExportOp) (s : Session) (env : Env)
    (e : String) (h1 : s.employees_loaded = true) (h2 : s.salary_calculated = true) :
    runExport op s env (WriteOutcome.err e)
      = (s, { messages := [exportErrorMessage op e]
              logs := [exportErrorLog op e]
              files := []
              browserOpened := false }) := by
  cases op <;>
    simp [runExport, save_report_json, save_report_txt, export_to_csv,
      export_to_html, write_report, exportErrorMessage, exportErrorLog, h1, h2]

/-- C8 witness: a failing JSON write from a ready session is caught and
surfaced as the error message and log entry. -/
theorem claim_C8_witness :
    runExport ExportOp.json readySession env0 (WriteOutcome.err "boom")
      = (readySession,
         { messages := [exportErrorMessage ExportOp.json "boom"]
           logs := [exportErrorLog ExportOp.json "boom"]
           files := []
           browserOpened := false }) :=
  claim_C8_export_error_handled ExportOp.json readySession env0 "boom" rfl rfl

/-- C9: every record in the operation log of any reachable session state has
status "success" — so the history view's "✗" branch is unreachable, every
rendered icon being "✓" — and every single step only appends to the log. -/
theorem claim_C9_history_success (evs : List Event) :
    (∀ r ∈ (runEvents evs initSession).operations_history,
        r.status = "success" ∧ status_icon r = "✓") ∧
    (∀ e s, ∃ l, (stepEvent e s).operations_history = s.operations_history ++ l) := by
  constructor
  · intro r hr
    have hs := runEvents_log_success evs initSession (by simp [initSession]) r hr
    exact ⟨hs, by unfold status_icon; rw [if_pos hs]⟩
  · intro e s
    obtain ⟨l, hl, _⟩ := stepEvent_log e s
    exact ⟨l, hl⟩

/-- C9 witness: the record produced by loading from the initial state has
status "success" and renders as "✓". -/
theorem claim_C9_witness :
    status_icon { operation := "Загрузка сотрудников", timestamp := "t0"
                  , duration_sec := 1, status := "success" } = "✓" :=
  ((claim_C9_history_success [Event.menu Action.load env0 WriteOutcome.ok]).1
    { operation := "Загрузка сотрудников", timestamp := "t0"
      , duration_sec := 1, status := "success" }
    (by simp [runEvents, stepEvent, menuStep, load_employees, initSession, env0])).2

/-- C10: in the CLI export dispatch, when `--export` carries any format but
salary has not been calculated, every branch of the if/elif chain is skipped:
the export functions are never called, no file is created and no message is
printed. -/
theorem claim_C10_cli_export_silent (fmt : String) (s : Session) (env : Env)
    (w : WriteOutcome) (h : s.salary_calculated = false) :
    cli_export_stage (some fmt) s env w = (s, Effects.empty) := by
  simp [cli_export_stage, h]

/-- C10 witness: `--export json` with no salary calculated is skipped
silently. -/
theorem claim_C10_witness :
    cli_export_stage (some "json") initSession env0 WriteOutcome.ok
      = (initSession, Effects.empty) :=
  claim_C10_cli_export_silent "json" initSession env0 WriteOutcome.ok rfl

end Accounting
